import Mathlib

/-!
Shallow embedding of the GLPI API adapter (src/glpi.py) — the entity
resolver (getId / _getId_v2 / _getId_v1_fallback), the request dispatcher
(_send_request), the composite create workflow (add / addToItemtype /
_link_component_v1 / _sanitize_v2_computer_payload) and the v2
authentication handshake (_init_session_v2).

Modelling conventions:
* The network is an oracle `env : Nat → Wire` giving the outcome of the
  n-th HTTP request issued by the adapter instance; the adapter state
  carries the request counter `calls` and a chronological log of issued
  requests (endpoint, method, JSON payload).
* JSON response bodies are modelled by `Body`, covering exactly the
  projections the Python code reads: the literal ERROR_RIGHT_MISSING
  string body, object bodies with the keys id / message / data that the
  code accesses, and array-of-entity bodies for the v2 list endpoints.
* Python exceptions are the `Exc` type; the code's test
  `"401" in str(e)` holds exactly for the dispatcher's 401 exception
  (the only raised exception whose text contains 401), modelled by
  `Exc.has401`.
* Python dict payloads are `PyVal.pObj` association lists in insertion
  order; Python truthiness of optional ints (None and 0 falsy, every
  other int truthy) is modelled explicitly at each use site.
-/
/-- A candidate entity object returned by a v2 list endpoint; the code
reads only the keys id, name, label and designation. -/
structure Cand where
  id : Option Int
  name : Option String
  label : Option String
  designation : Option String
deriving Repr, DecidableEq

/-- Parsed JSON response bodies, restricted to the shapes the adapter
inspects.  `permStr` is the exact ERROR_RIGHT_MISSING string body;
`obj` carries the id / message / data projections of an object body;
`cands` is an array of entity objects; `other` is any other JSON value
(on which the code's `.get` access raises, and whose `data`
membership test fails). -/
inductive Body where
  | permStr
  | obj (oid : Option Int) (msg : Option String) (dat : Option (List Int))
  | cands (xs : List Cand)
  | other
deriving Repr, DecidableEq

/-- Python values occurring in request payloads. -/
inductive PyVal where
  | pNone
  | pInt (n : Int)
  | pStr (s : String)
  | pArr (xs : List PyVal)
  | pObj (fs : List (String × PyVal))
deriving Repr

/-- One issued HTTP request: endpoint suffix, method, optional JSON body. -/
structure Req where
  endpoint : String
  method : String
  payload : Option PyVal
deriving Repr

/-- Outcome of one wire-level request: a transport failure, or a
response with an HTTP status and (when parseable) a JSON body. -/
inductive Wire where
  | transport
  | resp (status : Nat) (body : Option Body)

/-- The adapter's metrics counters (self.metrics in the source). -/
structure Metrics where
  requests : Nat
  errors : Nat
  errors4xx : Nat
  errors5xx : Nat
  unauthorized : Nat
deriving Repr, DecidableEq

/-- Adapter instance state: protocol selector, session credential,
authenticated user, metrics, the running request counter (index into
the wire oracle) and the chronological request log. -/
structure St where
  api_version : String
  session_token : Option String
  username : Option String
  metrics : Metrics
  calls : Nat
  reqLog : List Req
deriving Repr

/-- Python exceptions raised inside the adapter.  `unauthorized` is the
dispatcher's `Exception("401 Unauthorized: ...")`; `noToken` is the
RuntimeError raised before any request when no session exists;
`httpError` is requests' raise_for_status error; `jsonParse` is the
ValueError from response.json(); `pyError` is an AttributeError from
reading `.get` off a non-object body; `createFailed` and
`notImplemented` are the workflow's own exceptions. -/
inductive Exc where
  | noToken
  | unauthorized
  | httpError (status : Nat)
  | transport
  | jsonParse
  | pyError
  | createFailed
  | notImplemented
deriving Repr, DecidableEq

/-- The code's `"401" in str(e)` test: among the exceptions the adapter
can raise, exactly the dispatcher's 401 exception has "401" in its
message. -/
def Exc.has401 : Exc → Bool
  | Exc.unauthorized => true
  | _ => false

/-- Embedding of `_send_request` (src/glpi.py:271-328): fail fast
without a session token; otherwise count the request, dispatch it, and
classify the response (401 destroys the session and raises; other
HTTP errors bump the error counters and raise; unparseable JSON
raises; transport failures are re-raised). -/
def send_request (env : Nat → Wire) (st : St) (endpoint method : String)
    (payload : Option PyVal) : Except Exc Body × St :=
  match st.session_token with
  | none => (Except.error Exc.noToken, st)
  | some _ =>
    let st1 : St :=
      { st with
        metrics := { st.metrics with requests := st.metrics.requests + 1 }
        calls := st.calls + 1
        reqLog := st.reqLog ++ [⟨endpoint, method, payload⟩] }
    match env st.calls with
    | Wire.transport => (Except.error Exc.transport, st1)
    | Wire.resp status body =>
      if status = 401 then
        (Except.error Exc.unauthorized,
          { st1 with
            session_token := none
            username := none
            metrics := { st1.metrics with unauthorized := st1.metrics.unauthorized + 1 } })
      else if 400 ≤ status then
        let m2 :=
          if status < 500 then
            { st1.metrics with
              errors := st1.metrics.errors + 1
              errors4xx := st1.metrics.errors4xx + 1 }
          else
            { st1.metrics with
              errors := st1.metrics.errors + 1
              errors5xx := st1.metrics.errors5xx + 1 }
        (Except.error (Exc.httpError status), { st1 with metrics := m2 })
      else
        match body with
        | none => (Except.error Exc.jsonParse, st1)
        | some b => (Except.ok b, st1)

/-- Whitespace tokenizer accumulating the current word reversed
(helper for Python `str.split()`). -/
def wordsAux : List Char → List Char → List String
  | [], cur => if cur.isEmpty then [] else [String.mk cur.reverse]
  | c :: cs, cur =>
    if c.isWhitespace then
      if cur.isEmpty then wordsAux cs []
      else String.mk cur.reverse :: wordsAux cs []
    else wordsAux cs (c :: cur)

/-- Python `str.split()` (split on whitespace, dropping empty tokens). -/
def pySplit (s : String) : List String :=
  wordsAux s.toList []

/-- Join a list of words with single spaces (Python `" ".join`). -/
def joinSpace : List String → String
  | [] => ""
  | [w] => w
  | w :: ws => w ++ " " ++ joinSpace ws

/-- Python `str.lower()` (ASCII case folding, as used on the
entity names handled here). -/
def pyLower (s : String) : String :=
  String.mk (s.toList.map Char.toLower)

/-- Drop leading whitespace from a char list. -/
def dropLeadWs : List Char → List Char
  | [] => []
  | c :: cs => if c.isWhitespace then dropLeadWs cs else c :: cs

/-- Python `str.strip()`: remove leading and trailing whitespace. -/
def pyStrip (s : String) : String :=
  String.mk ((dropLeadWs (dropLeadWs s.toList).reverse).reverse)

/-- The resolver's normalisation `norm` (src/glpi.py:513-514): lower-case,
then collapse internal whitespace to single spaces. -/
def norm (s : String) : String :=
  joinSpace (pySplit (pyLower s))

/-- Does `needle` match at the head of `hay`? (helper for substring
containment). -/
def matchesAt : List Char → List Char → Bool
  | [], _ => true
  | _ :: _, [] => false
  | a :: as, b :: bs => a = b && matchesAt as bs

/-- Substring containment over char lists. -/
def hasSub (needle : List Char) : List Char → Bool
  | [] => needle.isEmpty
  | b :: bs => matchesAt needle (b :: bs) || hasSub needle bs

/-- Python `sub in s` on strings. -/
def pyIn (sub s : String) : Bool :=
  hasSub sub.toList s.toList

/-- The display field of a v2 candidate:
`it.get("name") or it.get("label") or it.get("designation") or ""`
(Python `or` skips None and empty strings). -/
def display (c : Cand) : String :=
  match c.name with
  | some s =>
    if s = "" then
      match c.label with
      | some t =>
        if t = "" then (match c.designation with
          | some u => u
          | none => "")
        else t
      | none =>
        match c.designation with
        | some u => u
        | none => ""
    else s
  | none =>
    match c.label with
    | some t =>
      if t = "" then (match c.designation with
        | some u => u
        | none => "")
      else t
    | none =>
      match c.designation with
      | some u => u
      | none => ""

/-- The static v2 endpoint mapping of `_getId_v2` (src/glpi.py:516-528):
logical type → (endpoint path, search field). -/
def v2Mapping : String → Option (String × String)
  | "DeviceProcessor" => some ("/Components/Processor", "designation")
  | "DeviceGraphicCard" => some ("/Components/GraphicCard", "designation")
  | "DeviceMemory" => some ("/Components/Memory", "designation")
  | "DeviceHardDrive" => some ("/Components/HardDrive", "designation")
  | "Manufacturer" => some ("/Dropdowns/Manufacturer", "name")
  | "Location" => some ("/Administration/Location", "name")
  | "ComputerModel" => some ("/Assets/ComputerModel", "name")
  | "User" => some ("/Administration/User", "name")
  | "OperatingSystem" => some ("/Administration/OperatingSystem", "name")
  | "OperatingSystemVersion" => some ("/Administration/OperatingSystemVersion", "name")
  | "OperatingSystemEdition" => some ("/Administration/OperatingSystemEdition", "name")
  | _ => none

/-- Scan of the filtered-search loop in `_getId_v2` (src/glpi.py:538-541):
first candidate whose normalised display field equals the normalised
query. -/
def scanExact (qn : String) : List Cand → Option Cand
  | [] => none
  | c :: cs => if norm (display c) = qn then some c else scanExact qn cs

/-- Result of the filtered-search branch of `_getId_v2` on a non-empty
candidate list: the first exact match's id, else the first result's id
(src/glpi.py:537-542). -/
def filteredPick (qn : String) (c : Cand) (cs : List Cand) : Option Int :=
  match scanExact qn (c :: cs) with
  | some e => e.id
  | none => c.id

/-- The unfiltered-scan loop of `_getId_v2` (src/glpi.py:547-557) with
its mutable `best` accumulator: an exact match wins immediately; the
first substring-containing candidate is remembered otherwise. -/
def bestLoop (qn : String) (best : Option Cand) : List Cand → Option Cand
  | [] => best
  | it :: rest =>
    if norm (display it) = qn then some it
    else if best.isNone && pyIn qn (norm (display it)) then
      bestLoop qn (some it) rest
    else bestLoop qn best rest

/-- The legacy search endpoint string used by `getId` and
`_getId_v1_fallback` (src/glpi.py:436 and 575). -/
def v1SearchEndpoint (itemtype query : String) : String :=
  "/search/" ++ itemtype ++
    "?criteria[0][link]=AND&criteria[0][field]=1&criteria[0][searchtype]=contains&criteria[0][value]="
    ++ query ++ "&forcedisplay=2"

/-- Interpretation of a legacy search response
(src/glpi.py:437-446 and 578-587): the ERROR_RIGHT_MISSING string body
gives 1403, a body with a non-empty `data` list gives the first row's
id, anything else gives 1404; a raised exception is passed through. -/
def v1SearchInterp : Except Exc Body → Except Exc (Option Int)
  | Except.ok Body.permStr => Except.ok (some 1403)
  | Except.ok (Body.obj _ _ (some (n :: _))) => Except.ok (some n)
  | Except.ok _ => Except.ok (some 1404)
  | Except.error e => Except.error e

/-- The inner try/except of `_getId_v1_fallback` (src/glpi.py:573-593):
like `v1SearchInterp`, but a caught exception becomes 1404 unless its
text contains "401", in which case it is re-raised. -/
def fbInterp (r : Except Exc Body) : Except Exc (Option Int) :=
  match v1SearchInterp r with
  | Except.error e => if e.has401 then Except.error e else Except.ok (some 1404)
  | Except.ok v => Except.ok v

/-- Embedding of `_getId_v1_fallback` (src/glpi.py:562-600): save the
protocol selector, pin it to v1, run the legacy search, restore the
selector in the finally block, and let the outer except turn any
escaped exception (including the re-raised 401) into 1404. -/
def getId_v1_fallback (env : Nat → Wire) (st : St) (itemtype query : String) :
    Except Exc (Option Int) × St :=
  let orig := st.api_version
  let p := send_request env { st with api_version := "v1" }
    (v1SearchEndpoint itemtype query) "GET" none
  let st2 := { p.2 with api_version := orig }
  (match fbInterp p.1 with
   | Except.error _ => Except.ok (some 1404)
   | Except.ok v => Except.ok v,
   st2)

/-- The second attempt of `_getId_v2` (src/glpi.py:545-559): fetch
the whole unfiltered collection and run the client-side scan that
prefers an exact match over a substring match; on an exception, a
non-list body, an empty list or no match at all, fall through to the
legacy fallback. -/
def getId_v2_phase2 (env : Nat → Wire) (st : St) (itemtype query base : String) :
    Except Exc (Option Int) × St :=
  let qn := norm query
  let p2 := send_request env st base "GET" none
  match p2.1 with
  | Except.ok (Body.cands (c :: cs)) =>
    match bestLoop qn none (c :: cs) with
    | some b => (Except.ok b.id, p2.2)
    | none => getId_v1_fallback env p2.2 itemtype query
  | _ => getId_v1_fallback env p2.2 itemtype query

/-- Embedding of `_getId_v2` (src/glpi.py:512-560): for mapped types,
try the filtered search (exact-match short-circuit, else first
result), then the unfiltered scan (exact preferred over substring),
then the legacy fallback; exceptions in either v2 attempt are
swallowed.  Unmapped types go straight to the fallback. -/
def getId_v2 (env : Nat → Wire) (st : St) (itemtype query : String) :
    Except Exc (Option Int) × St :=
  let qn := norm query
  match v2Mapping itemtype with
  | some (base, _field) =>
    let p1 := send_request env st base "GET" none
    match p1.1 with
    | Except.ok (Body.cands (c :: cs)) => (Except.ok (filteredPick qn c cs), p1.2)
    | _ => getId_v2_phase2 env p1.2 itemtype query base
  | none => getId_v1_fallback env st itemtype query

/-- Embedding of `getId` (src/glpi.py:429-451): empty query returns
None at once; otherwise dispatch on the protocol version, and in the
enclosing except clause re-raise exceptions whose text contains "401"
and turn every other exception into None. -/
def getId (env : Nat → Wire) (st : St) (itemtype query : String) :
    Except Exc (Option Int) × St :=
  if query = "" then (Except.ok none, st)
  else
    let p :=
      if st.api_version = "v2" then getId_v2 env st itemtype query
      else
        let q := send_request env st (v1SearchEndpoint itemtype query) "GET" none
        (v1SearchInterp q.1, q.2)
    match p.1 with
    | Except.error e => if e.has401 then (Except.error e, p.2) else (Except.ok none, p.2)
    | Except.ok v => (Except.ok v, p.2)

/-- The caller-supplied field map (Python dict of strings). -/
def Data := List (String × String)

/-- Dict lookup on the field map. -/
def sget : Data → String → Option String
  | [], _ => none
  | (k, v) :: rest, key => if k = key then some v else sget rest key

/-- A Python optional int as a payload value. -/
def optIntPy : Option Int → PyVal
  | none => PyVal.pNone
  | some n => PyVal.pInt n

/-- A Python optional string as a payload value. -/
def optStrPy : Option String → PyVal
  | none => PyVal.pNone
  | some s => PyVal.pStr s

/-- The reference keys sanitised by `_sanitize_v2_computer_payload`
(src/glpi.py:502). -/
def refKeys : List String := ["location", "user", "model", "manufacturer"]

/-- Embedding of `_sanitize_v2_computer_payload` (src/glpi.py:499-510):
reference keys are kept only when their value is an int that is
positive and not a sentinel; other keys are dropped when None or a
blank string. -/
def sanitize_v2 : List (String × PyVal) → List (String × PyVal)
  | [] => []
  | (k, v) :: rest =>
    if refKeys.contains k then
      match v with
      | PyVal.pInt n =>
        if 0 < n ∧ n ≠ 1403 ∧ n ≠ 1404 then (k, v) :: sanitize_v2 rest
        else sanitize_v2 rest
      | _ => sanitize_v2 rest
    else
      match v with
      | PyVal.pNone => sanitize_v2 rest
      | PyVal.pStr s => if pyStrip s = "" then sanitize_v2 rest else (k, v) :: sanitize_v2 rest
      | _ => (k, v) :: sanitize_v2 rest

/-- Sequencing helper for chains of `getId` calls whose exceptions
propagate (the workflow never catches them). -/
def bindId (p : Except Exc (Option Int) × St)
    (k : Option Int → St → Except Exc Int × St) : Except Exc Int × St :=
  match p.1 with
  | Except.error e => (Except.error e, p.2)
  | Except.ok v => k v p.2

/-- Extraction of the created root id (src/glpi.py:490-493):
`response_data.get("id")` must be truthy, else the workflow raises its
creation-failed exception; reading `.get` off a non-object body raises. -/
def extractRoot (p : Except Exc Body × St) : Except Exc Int × St :=
  match p.1 with
  | Except.error e => (Except.error e, p.2)
  | Except.ok (Body.obj (some n) _ _) =>
    if n = 0 then (Except.error Exc.createFailed, p.2) else (Except.ok n, p.2)
  | Except.ok (Body.obj none _ _) => (Except.error Exc.createFailed, p.2)
  | Except.ok _ => (Except.error Exc.pyError, p.2)

/-- The root-creation phase of `add` (src/glpi.py:457-493): resolve the
reference fields in dict-literal order, assemble the version-specific
payload (sanitised only on the v2 path), POST it, and extract the new
root id. -/
def add_create (env : Nat → Wire) (st : St) (data : Data) : Except Exc Int × St :=
  if st.api_version = "v2" then
    bindId (getId env st "Location" ((sget data "location").getD "")) fun loc st1 =>
    bindId (getId env st1 "User" (st1.username.getD "")) fun usr st2 =>
    bindId (getId env st2 "ComputerModel" ((sget data "model").getD "")) fun mdl st3 =>
    bindId (getId env st3 "Manufacturer" ((sget data "manufacturer").getD "")) fun man st4 =>
      let fields : List (String × PyVal) :=
        [("name", optStrPy (sget data "name")),
         ("serial", optStrPy (sget data "serial")),
         ("location", optIntPy loc),
         ("user", optIntPy usr),
         ("model", optIntPy mdl),
         ("manufacturer", optIntPy man),
         ("comment", optStrPy (sget data "comment"))]
      extractRoot (send_request env st4 "/Assets/Computer" "POST"
        (some (PyVal.pObj (sanitize_v2 fields))))
  else
    bindId (getId env st "Location" ((sget data "location").getD "")) fun loc st1 =>
    bindId (getId env st1 "User" (st1.username.getD "")) fun usr st2 =>
    bindId (getId env st2 "ComputerModel" ((sget data "model").getD "")) fun mdl st3 =>
    bindId (getId env st3 "Manufacturer" ((sget data "manufacturer").getD "")) fun man st4 =>
    bindId (getId env st4 "ComputerType" ((sget data "computer_type").getD "")) fun ctype st5 =>
      let base : List (String × PyVal) :=
        [("name", optStrPy (sget data "name")),
         ("serial", optStrPy (sget data "serial")),
         ("locations_id", optIntPy loc),
         ("users_id_tech", optIntPy usr),
         ("groups_id_tech", PyVal.pInt 1),
         ("computermodels_id", optIntPy mdl),
         ("comment", optStrPy (sget data "comment")),
         ("manufacturers_id", optIntPy man),
         ("computertypes_id", optIntPy ctype),
         ("_plugin_fields_funktionsfhigkeitfielddropdowns_id_defined",
           PyVal.pArr [PyVal.pInt 7])]
      let base2 :=
        match sget data "battery_health" with
        | some b =>
          if b = "" then base
          else
            match b.toInt? with
            | some kk => base ++ [("akkugesundheitinfield", PyVal.pInt kk)]
            | none => base
        | none => base
      extractRoot (send_request env st5 "/Computer/" "POST"
        (some (PyVal.pObj [("input", PyVal.pObj base2)])))

/-- Python truthy-and-not-a-sentinel test
`if x and x not in [1403, 1404]` on an optional int. -/
def goodId : Option Int → Bool
  | some n => n ≠ 0 && n ≠ 1403 && n ≠ 1404
  | none => false

/-- Embedding of `_link_component_v1` (src/glpi.py:602-622): pin the
protocol selector to v1, POST the legacy link payload, swallow any
exception, and restore the selector in the finally block. -/
def linkComponent_v1 (env : Nat → Wire) (st : St) (did : Int)
    (citemtype : String) (cid : Int) : St :=
  let orig := st.api_version
  let pay := PyVal.pObj
    [("input", PyVal.pObj
      [("items_id", PyVal.pInt did),
       ("itemtype", PyVal.pStr "Computer"),
       (pyLower citemtype ++ "s_id", PyVal.pInt cid)])]
  let p := send_request env { st with api_version := "v1" }
    ("/Item_" ++ citemtype) "POST" (some pay)
  { p.2 with api_version := orig }

/-- The if/elif chain of `addToItemtype` mapping a hardware component
name to its logical device type (src/glpi.py:637-644 and 662-669). -/
def componentDeviceType : String → Option String
  | "processor" => some "DeviceProcessor"
  | "cpu" => some "DeviceProcessor"
  | "gpu" => some "DeviceGraphicCard"
  | "ram" => some "DeviceMemory"
  | "hdd" => some "DeviceHardDrive"
  | _ => none

/-- The if/elif chain of the v2 branch mapping a component name to its
PATCH payload key (src/glpi.py:648-655). -/
def componentPatchKey : String → String
  | "gpu" => "graphicCards"
  | "ram" => "memories"
  | "hdd" => "hardDrives"
  | _ => "processors"

/-- The if/elif chain of the v1 branch mapping a component name to its
foreign-key field and link endpoint (src/glpi.py:677-688). -/
def componentV1Info : String → Option (String × String)
  | "processor" => some ("deviceprocessors_id", "/Item_DeviceProcessor")
  | "cpu" => some ("deviceprocessors_id", "/Item_DeviceProcessor")
  | "gpu" => some ("devicegraphiccards_id", "/Item_DeviceGraphicCard")
  | "ram" => some ("devicememories_id", "/Item_DeviceMemory")
  | "hdd" => some ("deviceharddrives_id", "/Item_DeviceHardDrive")
  | _ => none

/-- The v2 arm of one hardware-loop iteration of `addToItemtype`
(src/glpi.py:635-672): resolve the component; when the id is truthy
and not a sentinel, PATCH it onto the computer, falling back to the v1
link call (which swallows its own errors) if the PATCH raises. -/
def handleComponentV2 (env : Nat → Wire) (st : St) (did : Int) (c v : String) :
    Except Exc Unit × St :=
  match componentDeviceType c with
  | none => (Except.ok (), st)
  | some dtype =>
    let p := getId env st dtype v
    match p.1 with
    | Except.error e => (Except.error e, p.2)
    | Except.ok cid =>
      if goodId cid then
        match cid with
        | some n =>
          let pay := PyVal.pObj
            [(componentPatchKey c, PyVal.pArr [PyVal.pObj [("id", PyVal.pInt n)]])]
          let q := send_request env p.2
            ("/Assets/Computer/" ++ toString did) "PATCH" (some pay)
          match q.1 with
          | Except.ok _ => (Except.ok (), q.2)
          | Except.error _ => (Except.ok (), linkComponent_v1 env q.2 did dtype n)
        | none => (Except.ok (), p.2)
      else (Except.ok (), p.2)

/-- The v1 arm of one hardware-loop iteration of `addToItemtype`
(src/glpi.py:674-692): resolve the component and POST the legacy link
payload with the resolved value (sentinel or not) as foreign key; the
POST is unguarded, so its exceptions propagate. -/
def handleComponentV1 (env : Nat → Wire) (st : St) (did : Int) (c v : String) :
    Except Exc Unit × St :=
  match componentV1Info c with
  | none => (Except.ok (), st)
  | some (fkey, ep) =>
    match componentDeviceType c with
    | none => (Except.ok (), st)
    | some dtype =>
      let p := getId env st dtype v
      match p.1 with
      | Except.error e => (Except.error e, p.2)
      | Except.ok cid =>
        let pay := PyVal.pObj
          [("input", PyVal.pObj
            [("items_id", PyVal.pInt did),
             ("itemtype", PyVal.pStr "Computer"),
             (fkey, optIntPy cid)])]
        let q := send_request env p.2 ep "POST" (some pay)
        match q.1 with
        | Except.ok _ => (Except.ok (), q.2)
        | Except.error e => (Except.error e, q.2)

/-- One iteration of the hardware loop of `addToItemtype`
(src/glpi.py:627-692) for one component name: skipped unless the key
is present with a truthy value, then dispatched on the protocol
version. -/
def handleComponent (env : Nat → Wire) (st : St) (did : Int) (data : Data)
    (component : String) : Except Exc Unit × St :=
  match sget data component with
  | none => (Except.ok (), st)
  | some v =>
    if v = "" then (Except.ok (), st)
    else
      if st.api_version = "v2" then handleComponentV2 env st did component v
      else handleComponentV1 env st did component v

/-- The hardware component names iterated by `addToItemtype`
(src/glpi.py:626). -/
def hardwareComponents : List String := ["cpu", "processor", "gpu", "ram", "hdd"]

/-- The hardware loop of `addToItemtype`: process each component in
order, aborting on a propagated exception (as the Python for-loop
does). -/
def addHardware (env : Nat → Wire) : List String → St → Int → Data →
    Except Exc Unit × St
  | [], st, _, _ => (Except.ok (), st)
  | c :: rest, st, did, data =>
    let p := handleComponent env st did data c
    match p.1 with
    | Except.error e => (Except.error e, p.2)
    | Except.ok _ => addHardware env rest p.2 did data

/-- The v2 operating-system link (src/glpi.py:702-711): PATCH the OS
id with optional version/edition entries; the call is wrapped in a
try/except, so its result is ignored. -/
def osLinkV2 (env : Nat → Wire) (st : St) (did : Int) (n : Int)
    (osVer osEd : Option Int) : Except Exc Unit × St :=
  let entries : List (String × PyVal) :=
    [("operatingSystem", PyVal.pObj [("id", PyVal.pInt n)])]
    ++ (match osVer with
        | some m =>
          if m ≠ 0 ∧ m ≠ 1403 ∧ m ≠ 1404 then
            [("operatingSystemVersion", PyVal.pObj [("id", PyVal.pInt m)])]
          else []
        | none => [])
    ++ (match osEd with
        | some m =>
          if m ≠ 0 ∧ m ≠ 1403 ∧ m ≠ 1404 then
            [("operatingSystemEdition", PyVal.pObj [("id", PyVal.pInt m)])]
          else []
        | none => [])
  let q := send_request env st ("/Assets/Computer/" ++ toString did) "PATCH"
    (some (PyVal.pObj entries))
  (Except.ok (), q.2)

/-- The v1 operating-system link (src/glpi.py:713-725): POST the
legacy input payload; the call is unguarded, so its exceptions
propagate. -/
def osLinkV1 (env : Nat → Wire) (st : St) (did : Int) (n : Int)
    (osVer osEd : Option Int) : Except Exc Unit × St :=
  let entries : List (String × PyVal) :=
    [("items_id", PyVal.pInt did),
     ("itemtype", PyVal.pStr "Computer"),
     ("operatingsystems_id", PyVal.pInt n)]
    ++ (match osVer with
        | some m =>
          if m ≠ 0 ∧ m ≠ 1403 ∧ m ≠ 1404 then
            [("operatingsystemversions_id", PyVal.pInt m)]
          else []
        | none => [])
    ++ (match osEd with
        | some m =>
          if m ≠ 0 ∧ m ≠ 1403 ∧ m ≠ 1404 then
            [("operatingsystemeditions_id", PyVal.pInt m)]
          else []
        | none => [])
  let q := send_request env st "/Item_OperatingSystem" "POST"
    (some (PyVal.pObj [("input", PyVal.pObj entries)]))
  match q.1 with
  | Except.ok _ => (Except.ok (), q.2)
  | Except.error e => (Except.error e, q.2)

/-- The operating-system section of `addToItemtype`
(src/glpi.py:695-727): resolve OS, version and edition; when the base
OS id is truthy and not a sentinel, link it via the arm matching the
current protocol version. -/
def handleOS (env : Nat → Wire) (st : St) (did : Int) (data : Data) :
    Except Exc Unit × St :=
  match sget data "os" with
  | none => (Except.ok (), st)
  | some osv =>
    if osv = "" then (Except.ok (), st)
    else
      let p1 := getId env st "OperatingSystem" osv
      match p1.1 with
      | Except.error e => (Except.error e, p1.2)
      | Except.ok osId =>
        let p2 := getId env p1.2 "OperatingSystemVersion" ((sget data "os_version").getD "")
        match p2.1 with
        | Except.error e => (Except.error e, p2.2)
        | Except.ok osVer =>
          let p3 := getId env p2.2 "OperatingSystemEdition" ((sget data "os_edition").getD "")
          match p3.1 with
          | Except.error e => (Except.error e, p3.2)
          | Except.ok osEd =>
            match osId with
            | some n =>
              if n ≠ 0 ∧ n ≠ 1403 ∧ n ≠ 1404 then
                if p3.2.api_version = "v2" then osLinkV2 env p3.2 did n osVer osEd
                else osLinkV1 env p3.2 did n osVer osEd
              else (Except.ok (), p3.2)
            | none => (Except.ok (), p3.2)

/-- Embedding of `addToItemtype` (src/glpi.py:624-727): the hardware
loop followed by the operating-system section. -/
def addToItemtype (env : Nat → Wire) (st : St) (did : Int) (data : Data) :
    Except Exc Unit × St :=
  let p := addHardware env hardwareComponents st did data
  match p.1 with
  | Except.error e => (Except.error e, p.2)
  | Except.ok _ => handleOS env p.2 did data

/-- The keys whose presence triggers the secondary-link phase
(src/glpi.py:494). -/
def itemsToAdd : List String := ["cpu", "processor", "gpu", "ram", "hdd", "os"]

/-- Embedding of `add` (src/glpi.py:453-497): only "Computer" is
supported; create the root entity, then, if any component key is
present in the field map, run `addToItemtype`, and return the root id. -/
def add (env : Nat → Wire) (st : St) (itemtype : String) (data : Data) :
    Except Exc Int × St :=
  if itemtype = "Computer" then
    let p := add_create env st data
    match p.1 with
    | Except.error e => (Except.error e, p.2)
    | Except.ok cid =>
      if itemsToAdd.any (fun i => (sget data i).isSome) then
        let q := addToItemtype env p.2 cid data
        match q.1 with
        | Except.error e => (Except.error e, q.2)
        | Except.ok _ => (Except.ok cid, q.2)
      else (Except.ok cid, p.2)
  else (Except.error Exc.notImplemented, st)

/-- OAuth client configuration consumed by `_init_session_v2`
(src/glpi.py:22-25). -/
structure Cfg where
  client_id : Option String
  client_secret : Option String
  scope : Option String
  app_token : Option String

/-- A response of the v2 token endpoint, restricted to the projections
the code reads: HTTP status, whether the body parsed as JSON, whether
the Content-Type header names JSON, and the JSON fields consulted. -/
structure TokResp where
  status : Nat
  jsonOk : Bool
  ctJson : Bool
  err : Option String
  hint : Option String
  access_token : Option String
  detail : Option String
  message : Option String
  errDesc : Option String

/-- A request issued to the token endpoint: `basic` is the HTTP Basic
credential pair passed as requests' `auth` argument, when present. -/
structure TokReq where
  basic : Option (String × String)
deriving Repr, DecidableEq

/-- Outcome of `_init_session_v2`: an access token (paired with
success True), or a failure message, or the distinct
endpoint-not-found failure. -/
inductive AuthOut where
  | okTok (t : Option String)
  | failMsg (m : String)
  | failNotFound (m : String)
deriving Repr, DecidableEq

/-- Python falsy test on an optional string (`not self.client_id`). -/
def optFalsy : Option String → Bool
  | none => true
  | some s => s = ""

/-- Python `a or b or ... or default` over optional strings (None and
empty strings are skipped). -/
def pyOrMsg : List (Option String) → String → String
  | [], d => d
  | some s :: rest, d => if s = "" then pyOrMsg rest d else s
  | none :: rest, d => pyOrMsg rest d

/-- Embedding of `_init_session_v2` (src/glpi.py:102-196).  `resp1` is
the token endpoint's answer to the password-grant POST; `fb` is its
answer to the Basic-auth fallback POST (`none` when that POST itself
raises).  Returns the (success, token-or-message) pair together with
the list of token requests issued, in order. -/
def init_session_v2 (cfg : Cfg) (resp1 : TokResp) (fb : Option TokResp) :
    (Bool × AuthOut) × List TokReq :=
  let req1 : TokReq := ⟨none⟩
  if resp1.jsonOk = false then
    if resp1.status = 404 then
      ((false, AuthOut.failNotFound "GLPI API v2 token endpoint not found (404)."), [req1])
    else ((false, AuthOut.failMsg "Unexpected response from GLPI API"), [req1])
  else if resp1.ctJson = false then
    if resp1.status = 404 then
      ((false, AuthOut.failNotFound "GLPI API v2 token endpoint not found (404)."), [req1])
    else ((false, AuthOut.failMsg "Unexpected response format from GLPI API"), [req1])
  else if resp1.status = 200 then
    ((true, AuthOut.okTok resp1.access_token), [req1])
  else if resp1.status = 404 then
    ((false, AuthOut.failNotFound
      (pyOrMsg [resp1.detail, resp1.message] "GLPI API v2 token endpoint not found (404).")),
     [req1])
  else if resp1.status = 400 ∧ resp1.err = some "invalid_request"
      ∧ (pyIn "client_id" (resp1.hint.getD "") = true ∨ optFalsy cfg.client_id = true) then
    let req2 : TokReq := ⟨some (cfg.client_id.getD "", cfg.client_secret.getD "")⟩
    match fb with
    | some resp2 =>
      if resp2.status = 200 then
        ((true, AuthOut.okTok (if resp2.jsonOk then resp2.access_token else none)),
         [req1, req2])
      else
        ((false, AuthOut.failMsg
          "GLPI v2 OAuth requires valid client credentials. Check glpi.client_id/client_secret."),
         [req1, req2])
    | none =>
      ((false, AuthOut.failMsg
        "GLPI v2 OAuth requires valid client credentials. Check glpi.client_id/client_secret."),
       [req1, req2])
  else
    ((false, AuthOut.failMsg
      (pyOrMsg [resp1.detail, resp1.message, resp1.errDesc, resp1.err] "Login failed")),
     [req1])

/-- The request log of `st2` extends the one of `st` by GET requests
only. -/
def GETtail (st st2 : St) : Prop :=
  ∃ tail, st2.reqLog = st.reqLog ++ tail ∧ ∀ r ∈ tail, r.method = "GET"

/-! ### Sanitisation lemmas -/
/-- Association-list lookup on a payload object (Python dict access). -/
def pyLookup : List (String × PyVal) → String → Option PyVal
  | [], _ => none
  | (k, v) :: rest, key => if k = key then some v else pyLookup rest key

/-! ### Concrete fixtures for witnesses and counterexamples -/
/-- Zeroed metrics. -/
def m0 : Metrics := ⟨0, 0, 0, 0, 0⟩

/-- A v1-configured adapter with an active session. -/
def stV1 : St := ⟨"v1", some "tok", some "tech", m0, 0, []⟩

/-- A v2-configured adapter with an active session. -/
def stV2 : St := ⟨"v2", some "tok", some "tech", m0, 0, []⟩

/-- A wire oracle on which every request fails at transport level. -/
def envTr : Nat → Wire := fun _ => Wire.transport

/-- A wire oracle on which every request is rejected with HTTP 401. -/
def env401 : Nat → Wire := fun _ => Wire.resp 401 none

/-- A concrete token-endpoint rejection citing client_id. -/
def resp1C10 : TokResp :=
  ⟨400, true, true, some "invalid_request", some "check the client_id parameter",
   none, none, none, none⟩

/-- A concrete successful Basic-auth retry response. -/
def resp2C10 : TokResp :=
  ⟨200, true, true, none, none, some "tok123", none, none, none⟩

/-- A concrete OAuth client configuration. -/
def cfgC10 : Cfg := ⟨some "cid", some "sec", some "api", none⟩

/-- A candidate whose display name merely contains the query "Dell". -/
def candSub : Cand := ⟨some 1, some "Dell Inc", none, none⟩

/-- A candidate whose display name is a case/whitespace variant of the
query "Dell". -/
def candEx : Cand := ⟨some 2, some " DELL ", none, none⟩

/-- A candidate set holding both a substring match and an exact match. -/
def xsC7 : List Cand := [candSub, candEx]

/-- A wire oracle whose every response is that candidate set. -/
def envC7 : Nat → Wire := fun _ => Wire.resp 200 (some (Body.cands xsC7))

/-! ### Claim C2: sanitisation of the root create payload -/
/-- The value at a reference key of a request's object payload. -/
def reqField (r : Req) (k : String) : Option PyVal :=
  match r.payload with
  | some (PyVal.pObj fs) => pyLookup fs k
  | _ => none

/-- v2 adapter state for the C2 witness. -/
def stC2w : St := ⟨"v2", some "tok", none, m0, 0, []⟩

/-- Field map for the C2 witness. -/
def dataC2w : Data := [("name", "T1"), ("serial", "S1"), ("location", "Akademie")]

/-- Wire oracle for the C2 witness: the location search returns an
exact match with id 7; the create POST succeeds. -/
def envC2w : Nat → Wire := fun n =>
  match n with
  | 0 => Wire.resp 200 (some (Body.cands [⟨some 7, some "Akademie", none, none⟩]))
  | _ => Wire.resp 200 (some (Body.obj (some 42) none none))

/-- The create request issued by `add_create` on the C2 witness run:
location resolved to 7 and kept, the unresolved references dropped. -/
def c2wReq : Req :=
  ⟨"/Assets/Computer", "POST",
   some (PyVal.pObj
     [("name", PyVal.pStr "T1"), ("serial", PyVal.pStr "S1"),
      ("location", PyVal.pInt 7)])⟩

/-- Field map for the C2 fixtures: only a location reference. -/
def dataC2 : Data := [("name", "T1"), ("serial", "S1"), ("location", "Nowhere")]

/-- v1 adapter state for the C2 counterexample (no username, so only
the location field triggers a resolution call). -/
def stC2 : St := ⟨"v1", some "tok", none, m0, 0, []⟩

/-- Wire oracle for the C2 counterexample: the location search returns
an empty result set (so `getId` yields the 1404 sentinel), and the
create POST succeeds. -/
def envC2 : Nat → Wire := fun n =>
  match n with
  | 0 => Wire.resp 200 (some (Body.obj none none (some [])))
  | _ => Wire.resp 200 (some (Body.obj (some 42) none none))

/-- Value at a nested key of an optional request's payload. -/
def reqField2 (r : Option Req) (k1 k2 : String) : Option PyVal :=
  match r with
  | some rr =>
    match reqField rr k1 with
    | some (PyVal.pObj gs) => pyLookup gs k2
    | _ => none
  | none => none

/-- v2 adapter state for the C3 witness. -/
def stC3 : St := ⟨"v2", some "tok", none, m0, 0, []⟩

/-- Field map for the C3 witness: two hardware components requested. -/
def dataC3 : Data := [("name", "T1"), ("serial", "S1"), ("processor", "i5"), ("gpu", "rtx")]

/-- Wire oracle for the C3 witness: the create POST succeeds with id
42, and every later call — all the component resolution and link
traffic — fails at transport level. -/
def envC3 : Nat → Wire := fun n =>
  match n with
  | 0 => Wire.resp 200 (some (Body.obj (some 42) none none))
  | _ => Wire.transport

/-- Field map for the C3 counterexample: one hardware component. -/
def dataC3b : Data := [("name", "T1"), ("serial", "S1"), ("processor", "i5")]

/-- v1 adapter state for the C3 counterexample. -/
def stC3b : St := ⟨"v1", some "tok", none, m0, 0, []⟩

/-- Wire oracle for the C3 counterexample: create succeeds with id 42,
the processor search resolves to id 7, and the link POST fails with
HTTP 500. -/
def envC3b : Nat → Wire := fun n =>
  match n with
  | 0 => Wire.resp 200 (some (Body.obj (some 42) none none))
  | 1 => Wire.resp 200 (some (Body.obj none none (some [7])))
  | _ => Wire.resp 500 none

/-! ### Dispatcher lemmas -/
lemma send_api (env : Nat → Wire) (st : St) (e m : String) (p : Option PyVal) :
    (send_request env st e m p).2.api_version = st.api_version := by
  unfold send_request
  cases htok : st.session_token with
  | none => rfl
  | some tok =>
    cases hw : env st.calls with
    | transport => rfl
    | resp status body =>
      by_cases h1 : status = 401
      · simp [h1]
      · by_cases h2 : 400 ≤ status
        · by_cases h3 : status < 500 <;> simp [h1, h2, h3]
        · cases body <;> simp [h1, h2]

lemma send_noToken (env : Nat → Wire) (st : St) (e m : String) (p : Option PyVal)
    (h : st.session_token = none) :
    send_request env st e m p = (Except.error Exc.noToken, st) := by
  unfold send_request
  rw [h]

lemma send_log (env : Nat → Wire) (st : St) (e m : String) (p : Option PyVal) :
    (send_request env st e m p).2.reqLog = st.reqLog
    ∨ (send_request env st e m p).2.reqLog = st.reqLog ++ [⟨e, m, p⟩] := by
  unfold send_request
  cases htok : st.session_token with
  | none => exact Or.inl rfl
  | some tok =>
    cases hw : env st.calls with
    | transport => exact Or.inr rfl
    | resp status body =>
      by_cases h1 : status = 401
      · right; simp [h1]
      · by_cases h2 : 400 ≤ status
        · by_cases h3 : status < 500 <;> right <;> simp [h1, h2, h3]
        · cases body <;> right <;> simp [h1, h2]

lemma GETtail_refl (st : St) : GETtail st st :=
  ⟨[], by simp, by simp⟩

lemma GETtail_of_eq (st st2 : St) (h : st2.reqLog = st.reqLog) : GETtail st st2 :=
  ⟨[], by simp [h], by simp⟩

lemma GETtail_trans (st1 st2 st3 : St) (h1 : GETtail st1 st2) (h2 : GETtail st2 st3) :
    GETtail st1 st3 := by
  obtain ⟨t1, e1, m1⟩ := h1
  obtain ⟨t2, e2, m2⟩ := h2
  refine ⟨t1 ++ t2, by simp [e2, e1], ?_⟩
  intro r hr
  rcases List.mem_append.1 hr with h | h
  · exact m1 r h
  · exact m2 r h

lemma GETtail_send (env : Nat → Wire) (st : St) (e : String) (p : Option PyVal) :
    GETtail st (send_request env st e "GET" p).2 := by
  rcases send_log env st e "GET" p with h | h
  · exact GETtail_of_eq _ _ h
  · exact ⟨[⟨e, "GET", p⟩], h, by simp⟩

lemma GETtail_send_from (env : Nat → Wire) (st st0 : St) (e : String) (p : Option PyVal)
    (h : st.reqLog = st0.reqLog) :
    GETtail st0 (send_request env st e "GET" p).2 := by
  rcases send_log env st e "GET" p with hl | hl
  · exact GETtail_of_eq _ _ (hl.trans h)
  · exact ⟨[⟨e, "GET", p⟩], by rw [hl, h], by simp⟩

/-! ### Legacy-fallback lemmas -/
lemma fb_api (env : Nat → Wire) (st : St) (t q : String) :
    (getId_v1_fallback env st t q).2.api_version = st.api_version := rfl

lemma fb_reqLog (env : Nat → Wire) (st : St) (t q : String) :
    GETtail st (getId_v1_fallback env st t q).2 := by
  unfold getId_v1_fallback
  exact GETtail_send_from env _ st _ none rfl

lemma fb_ok (env : Nat → Wire) (st : St) (t q : String) :
    ∃ v, (getId_v1_fallback env st t q).1 = Except.ok v := by
  unfold getId_v1_fallback
  cases h : fbInterp (send_request env { st with api_version := "v1" }
      (v1SearchEndpoint t q) "GET" none).1 with
  | error e => exact ⟨some 1404, by simp [h]⟩
  | ok v => exact ⟨v, by simp [h]⟩

/-! ### Modern-resolver lemmas -/
lemma phase2_api (env : Nat → Wire) (st : St) (t q base : String) :
    (getId_v2_phase2 env st t q base).2.api_version = st.api_version := by
  unfold getId_v2_phase2
  dsimp only
  split
  · split
    · rw [send_api]
    · rw [fb_api, send_api]
  · rw [fb_api, send_api]

lemma phase2_reqLog (env : Nat → Wire) (st : St) (t q base : String) :
    GETtail st (getId_v2_phase2 env st t q base).2 := by
  unfold getId_v2_phase2
  dsimp only
  split
  · split
    · exact GETtail_send env st _ none
    · exact GETtail_trans _ _ _ (GETtail_send env st _ none) (fb_reqLog env _ t q)
  · exact GETtail_trans _ _ _ (GETtail_send env st _ none) (fb_reqLog env _ t q)

lemma phase2_ok (env : Nat → Wire) (st : St) (t q base : String) :
    ∃ v, (getId_v2_phase2 env st t q base).1 = Except.ok v := by
  unfold getId_v2_phase2
  dsimp only
  split
  · split
    · exact ⟨_, rfl⟩
    · exact fb_ok env _ t q
  · exact fb_ok env _ t q

lemma getId_v2_api (env : Nat → Wire) (st : St) (t q : String) :
    (getId_v2 env st t q).2.api_version = st.api_version := by
  unfold getId_v2
  dsimp only
  split
  · split
    · rw [send_api]
    · rw [phase2_api, send_api]
  · exact fb_api env st t q

lemma getId_v2_reqLog (env : Nat → Wire) (st : St) (t q : String) :
    GETtail st (getId_v2 env st t q).2 := by
  unfold getId_v2
  dsimp only
  split
  · split
    · exact GETtail_send env st _ none
    · exact GETtail_trans _ _ _ (GETtail_send env st _ none) (phase2_reqLog env _ t q _)
  · exact fb_reqLog env st t q

lemma getId_v2_ok (env : Nat → Wire) (st : St) (t q : String) :
    ∃ v, (getId_v2 env st t q).1 = Except.ok v := by
  unfold getId_v2
  dsimp only
  split
  · split
    · exact ⟨_, rfl⟩
    · exact phase2_ok env _ t q _
  · exact fb_ok env st t q

/-! ### Resolver lemmas -/
lemma getId_api (env : Nat → Wire) (st : St) (t q : String) :
    (getId env st t q).2.api_version = st.api_version := by
  unfold getId
  dsimp only
  split
  · rfl
  · by_cases hv : st.api_version = "v2"
    · simp only [if_pos hv]
      split
      · split
        · rw [getId_v2_api]
        · rw [getId_v2_api]
      · rw [getId_v2_api]
    · simp only [if_neg hv]
      split
      · split
        · rw [send_api]
        · rw [send_api]
      · rw [send_api]

lemma getId_ok_v2 (env : Nat → Wire) (st : St) (t q : String)
    (hv : st.api_version = "v2") :
    ∃ v, (getId env st t q).1 = Except.ok v := by
  unfold getId
  dsimp only
  split
  · exact ⟨none, rfl⟩
  · obtain ⟨v, hvv⟩ := getId_v2_ok env st t q
    rw [hvv]
    exact ⟨v, rfl⟩

lemma getId_reqLog (env : Nat → Wire) (st : St) (t q : String) :
    GETtail st (getId env st t q).2 := by
  unfold getId
  dsimp only
  split
  · exact GETtail_refl st
  · by_cases hv : st.api_version = "v2"
    · simp only [if_pos hv]
      split
      · split
        · exact getId_v2_reqLog env st t q
        · exact getId_v2_reqLog env st t q
      · exact getId_v2_reqLog env st t q
    · simp only [if_neg hv]
      split
      · split
        · exact GETtail_send env st _ none
        · exact GETtail_send env st _ none
      · exact GETtail_send env st _ none

/-! ### Matching-policy lemmas -/
lemma scanExact_found (qn : String) (xs : List Cand)
    (h : ∃ e ∈ xs, norm (display e) = qn) :
    ∃ e, scanExact qn xs = some e ∧ e ∈ xs ∧ norm (display e) = qn := by
  induction xs with
  | nil => obtain ⟨e, he, _⟩ := h; cases he
  | cons c cs ih =>
    by_cases hc : norm (display c) = qn
    · exact ⟨c, by simp [scanExact, hc], by simp, hc⟩
    · obtain ⟨e, he, hne⟩ := h
      rcases List.mem_cons.1 he with rfl | hmem
      · exact absurd hne hc
      · obtain ⟨e2, hs, hm2, hn2⟩ := ih ⟨e, hmem, hne⟩
        exact ⟨e2, by simp [scanExact, hc, hs], List.mem_cons_of_mem _ hm2, hn2⟩

lemma filteredPick_exact (qn : String) (c : Cand) (cs : List Cand)
    (h : ∃ e ∈ c :: cs, norm (display e) = qn) :
    ∃ e ∈ c :: cs, norm (display e) = qn ∧ filteredPick qn c cs = e.id := by
  obtain ⟨e, hs, hm, hn⟩ := scanExact_found qn (c :: cs) h
  exact ⟨e, hm, hn, by simp [filteredPick, hs]⟩

lemma bestLoop_exact (qn : String) (xs : List Cand) :
    ∀ acc : Option Cand, (∃ e ∈ xs, norm (display e) = qn) →
      ∃ e, bestLoop qn acc xs = some e ∧ e ∈ xs ∧ norm (display e) = qn := by
  induction xs with
  | nil =>
    intro acc h
    obtain ⟨e, he, _⟩ := h
    cases he
  | cons it rest ih =>
    intro acc h
    by_cases hc : norm (display it) = qn
    · exact ⟨it, by simp [bestLoop, hc], by simp, hc⟩
    · obtain ⟨e, he, hne⟩ := h
      rcases List.mem_cons.1 he with rfl | hmem
      · exact absurd hne hc
      · by_cases hb : (acc.isNone && pyIn qn (norm (display it))) = true
        · obtain ⟨e2, hs, hm2, hn2⟩ := ih (some it) ⟨e, hmem, hne⟩
          exact ⟨e2, by simp [bestLoop, hc, hb, hs], List.mem_cons_of_mem _ hm2, hn2⟩
        · obtain ⟨e2, hs, hm2, hn2⟩ := ih acc ⟨e, hmem, hne⟩
          refine ⟨e2, ?_, List.mem_cons_of_mem _ hm2, hn2⟩
          simp only [bestLoop, if_neg hc]
          rw [if_neg (by simpa using hb)]
          exact hs

/-! ### Workflow lemmas -/
lemma link_api (env : Nat → Wire) (st : St) (did : Int) (ct : String) (cid : Int) :
    (linkComponent_v1 env st did ct cid).api_version = st.api_version := rfl

lemma extractRoot_state (p : Except Exc Body × St) : (extractRoot p).2 = p.2 := by
  unfold extractRoot
  split
  · rfl
  · split
    · rfl
    · rfl
  · rfl
  · rfl

lemma bindId_api (p : Except Exc (Option Int) × St)
    (k : Option Int → St → Except Exc Int × St)
    (hk : ∀ v s, (k v s).2.api_version = s.api_version) :
    (bindId p k).2.api_version = p.2.api_version := by
  unfold bindId
  split
  · rfl
  · exact hk _ _

lemma add_create_api (env : Nat → Wire) (st : St) (data : Data) :
    (add_create env st data).2.api_version = st.api_version := by
  unfold add_create
  dsimp only
  split
  · exact (bindId_api _ _ (fun loc st1 =>
      (bindId_api _ _ (fun usr st2 =>
        (bindId_api _ _ (fun mdl st3 =>
          (bindId_api _ _ (fun man st4 => by
            rw [extractRoot_state, send_api])).trans (getId_api env st3 _ _))).trans
              (getId_api env st2 _ _))).trans (getId_api env st1 _ _))).trans
                (getId_api env st _ _)
  · exact (bindId_api _ _ (fun loc st1 =>
      (bindId_api _ _ (fun usr st2 =>
        (bindId_api _ _ (fun mdl st3 =>
          (bindId_api _ _ (fun man st4 =>
            (bindId_api _ _ (fun ctype st5 => by
              rw [extractRoot_state, send_api])).trans (getId_api env st4 _ _))).trans
                (getId_api env st3 _ _))).trans (getId_api env st2 _ _))).trans
                  (getId_api env st1 _ _))).trans (getId_api env st _ _)

lemma handleComponentV2_ok (env : Nat → Wire) (st : St) (did : Int) (c v : String)
    (hv : st.api_version = "v2") :
    (handleComponentV2 env st did c v).1 = Except.ok ()
    ∧ (handleComponentV2 env st did c v).2.api_version = "v2" := by
  unfold handleComponentV2
  dsimp only
  split
  next => exact ⟨rfl, hv⟩
  next dtype hdt =>
    obtain ⟨cv, hcv⟩ := getId_ok_v2 env st dtype v hv
    rw [hcv]
    dsimp only
    by_cases hg : goodId cv = true
    · rw [if_pos hg]
      cases cv with
      | none =>
        dsimp only
        refine ⟨rfl, ?_⟩
        rw [getId_api]
        exact hv
      | some n =>
        dsimp only
        split
        next =>
          refine ⟨rfl, ?_⟩
          rw [send_api, getId_api]
          exact hv
        next =>
          refine ⟨rfl, ?_⟩
          rw [link_api, send_api, getId_api]
          exact hv
    · rw [if_neg hg]
      refine ⟨rfl, ?_⟩
      rw [getId_api]
      exact hv

lemma handleComponent_v2 (env : Nat → Wire) (st : St) (did : Int) (data : Data)
    (c : String) (hv : st.api_version = "v2") :
    (handleComponent env st did data c).1 = Except.ok ()
    ∧ (handleComponent env st did data c).2.api_version = "v2" := by
  unfold handleComponent
  split
  next => exact ⟨rfl, hv⟩
  next v hs =>
    by_cases hve : v = ""
    · rw [if_pos hve]
      exact ⟨rfl, hv⟩
    · rw [if_neg hve, if_pos hv]
      exact handleComponentV2_ok env st did c v hv

lemma addHardware_v2 (env : Nat → Wire) (l : List String) :
    ∀ (st : St) (did : Int) (data : Data), st.api_version = "v2" →
      (addHardware env l st did data).1 = Except.ok ()
      ∧ (addHardware env l st did data).2.api_version = "v2" := by
  induction l with
  | nil => intro st did data hv; exact ⟨rfl, hv⟩
  | cons c rest ih =>
    intro st did data hv
    obtain ⟨hok, hapi⟩ := handleComponent_v2 env st did data c hv
    unfold addHardware
    dsimp only
    rw [hok]
    exact ih _ did data hapi

lemma handleOS_v2 (env : Nat → Wire) (st : St) (did : Int) (data : Data)
    (hv : st.api_version = "v2") :
    (handleOS env st did data).1 = Except.ok () := by
  unfold handleOS
  split
  next => rfl
  next osv hs =>
    by_cases hve : osv = ""
    · rw [if_pos hve]
    · rw [if_neg hve]
      dsimp only
      obtain ⟨w1, h1⟩ := getId_ok_v2 env st "OperatingSystem" osv hv
      rw [h1]
      dsimp only
      have a1 : (getId env st "OperatingSystem" osv).2.api_version = "v2" :=
        (getId_api env st "OperatingSystem" osv).trans hv
      obtain ⟨w2, h2⟩ := getId_ok_v2 env (getId env st "OperatingSystem" osv).2
        "OperatingSystemVersion" ((sget data "os_version").getD "") a1
      rw [h2]
      dsimp only
      have a2 : (getId env (getId env st "OperatingSystem" osv).2 "OperatingSystemVersion"
          ((sget data "os_version").getD "")).2.api_version = "v2" :=
        (getId_api env _ _ _).trans a1
      obtain ⟨w3, h3⟩ := getId_ok_v2 env (getId env (getId env st "OperatingSystem" osv).2
        "OperatingSystemVersion" ((sget data "os_version").getD "")).2
        "OperatingSystemEdition" ((sget data "os_edition").getD "") a2
      rw [h3]
      dsimp only
      have a3 : (getId env (getId env (getId env st "OperatingSystem" osv).2
          "OperatingSystemVersion" ((sget data "os_version").getD "")).2
          "OperatingSystemEdition" ((sget data "os_edition").getD "")).2.api_version = "v2" :=
        (getId_api env _ _ _).trans a2
      cases w1 with
      | none => rfl
      | some n =>
        dsimp only
        by_cases hn : n ≠ 0 ∧ n ≠ 1403 ∧ n ≠ 1404
        · rw [if_pos hn, if_pos a3]
          rfl
        · rw [if_neg hn]

lemma addToItemtype_v2 (env : Nat → Wire) (st : St) (did : Int) (data : Data)
    (hv : st.api_version = "v2") :
    (addToItemtype env st did data).1 = Except.ok () := by
  unfold addToItemtype
  dsimp only
  obtain ⟨hok, hapi⟩ := addHardware_v2 env hardwareComponents st did data hv
  rw [hok]
  exact handleOS_v2 env _ did data hapi

lemma sanitize_clean (fs : List (String × PyVal)) (k : String) (v : PyVal)
    (hk : refKeys.contains k = true)
    (hl : pyLookup (sanitize_v2 fs) k = some v) :
    ∃ n, v = PyVal.pInt n ∧ 0 < n ∧ n ≠ 1403 ∧ n ≠ 1404 := by
  induction fs with
  | nil => cases hl
  | cons p rest ih =>
    obtain ⟨k2, v2⟩ := p
    by_cases hk2 : refKeys.contains k2 = true
    · simp only [sanitize_v2, if_pos hk2] at hl
      cases v2 with
      | pInt n =>
        dsimp only at hl
        by_cases hc : 0 < n ∧ n ≠ 1403 ∧ n ≠ 1404
        · rw [if_pos hc] at hl
          simp only [pyLookup] at hl
          by_cases hkk : k2 = k
          · rw [if_pos hkk] at hl
            exact ⟨n, (Option.some_inj.1 hl).symm, hc⟩
          · rw [if_neg hkk] at hl
            exact ih hl
        · rw [if_neg hc] at hl
          exact ih hl
      | pNone => exact ih hl
      | pStr s2 => exact ih hl
      | pArr xs => exact ih hl
      | pObj gs => exact ih hl
    · simp only [sanitize_v2, if_neg hk2] at hl
      cases v2 with
      | pNone => exact ih hl
      | pStr s2 =>
        dsimp only at hl
        by_cases hb : pyStrip s2 = ""
        · rw [if_pos hb] at hl
          exact ih hl
        · rw [if_neg hb] at hl
          simp only [pyLookup] at hl
          by_cases hkk : k2 = k
          · exact absurd hk (hkk ▸ hk2)
          · rw [if_neg hkk] at hl
            exact ih hl
      | pInt n =>
        simp only [pyLookup] at hl
        by_cases hkk : k2 = k
        · exact absurd hk (hkk ▸ hk2)
        · rw [if_neg hkk] at hl
          exact ih hl
      | pArr xs =>
        simp only [pyLookup] at hl
        by_cases hkk : k2 = k
        · exact absurd hk (hkk ▸ hk2)
        · rw [if_neg hkk] at hl
          exact ih hl
      | pObj gs =>
        simp only [pyLookup] at hl
        by_cases hkk : k2 = k
        · exact absurd hk (hkk ▸ hk2)
        · rw [if_neg hkk] at hl
          exact ih hl

lemma send_post_log (env : Nat → Wire) (st : St) (e m : String) (p : Option PyVal) :
    ∀ r ∈ (send_request env st e m p).2.reqLog, r ∈ st.reqLog ∨ r = ⟨e, m, p⟩ := by
  intro r hr
  rcases send_log env st e m p with h | h
  · rw [h] at hr
    exact Or.inl hr
  · rw [h] at hr
    rcases List.mem_append.1 hr with h2 | h2
    · exact Or.inl h2
    · exact Or.inr (by simpa using h2)

lemma bindId_log (P : Req → Prop) (p : Except Exc (Option Int) × St)
    (k : Option Int → St → Except Exc Int × St)
    (hp : ∀ r ∈ p.2.reqLog, P r)
    (hk : ∀ v, ∀ r ∈ (k v p.2).2.reqLog, P r) :
    ∀ r ∈ (bindId p k).2.reqLog, P r := by
  unfold bindId
  split
  next => exact hp
  next => exact hk _

set_option maxHeartbeats 1000000 in
lemma add_create_posts (env : Nat → Wire) (st : St) (data : Data)
    (hv : st.api_version = "v2") :
    ∀ r ∈ (add_create env st data).2.reqLog,
      r ∈ st.reqLog ∨ r.method = "GET"
      ∨ ∃ fs, r = ⟨"/Assets/Computer", "POST", some (PyVal.pObj (sanitize_v2 fs))⟩ := by
  have hmem : ∀ s1 s2 : St, GETtail s1 s2 → ∀ r ∈ s2.reqLog,
      r ∈ s1.reqLog ∨ r.method = "GET" := by
    rintro s1 s2 ⟨tail, he, hm⟩ r hr
    rw [he] at hr
    rcases List.mem_append.1 hr with h | h
    · exact Or.inl h
    · exact Or.inr (hm r h)
  unfold add_create
  rw [if_pos hv]
  refine bindId_log _ _ _ ?_ ?_
  · exact fun r hr => (hmem st _ (getId_reqLog env st _ _) r hr).elim Or.inl
      (fun h => Or.inr (Or.inl h))
  · intro loc
    refine bindId_log _ _ _ ?_ ?_
    · exact fun r hr => (hmem st _ (GETtail_trans _ _ _ (getId_reqLog env st _ _)
        (getId_reqLog env _ _ _)) r hr).elim Or.inl (fun h => Or.inr (Or.inl h))
    · intro usr
      refine bindId_log _ _ _ ?_ ?_
      · exact fun r hr => (hmem st _ (GETtail_trans _ _ _ (GETtail_trans _ _ _
          (getId_reqLog env st _ _) (getId_reqLog env _ _ _))
          (getId_reqLog env _ _ _)) r hr).elim Or.inl (fun h => Or.inr (Or.inl h))
      · intro mdl
        refine bindId_log _ _ _ ?_ ?_
        · exact fun r hr => (hmem st _ (GETtail_trans _ _ _ (GETtail_trans _ _ _
            (GETtail_trans _ _ _ (getId_reqLog env st _ _) (getId_reqLog env _ _ _))
            (getId_reqLog env _ _ _)) (getId_reqLog env _ _ _)) r hr).elim Or.inl
            (fun h => Or.inr (Or.inl h))
        · intro man r hr
          rw [extractRoot_state] at hr
          rcases send_post_log _ _ _ _ _ r hr with h | h
          · exact (hmem st _ (GETtail_trans _ _ _ (GETtail_trans _ _ _
              (GETtail_trans _ _ _ (getId_reqLog env st _ _) (getId_reqLog env _ _ _))
              (getId_reqLog env _ _ _)) (getId_reqLog env _ _ _)) r h).elim Or.inl
              (fun h2 => Or.inr (Or.inl h2))
          · exact Or.inr (Or.inr ⟨_, h⟩)

/-! ### Claim C4 (code bug): the legacy fallback converts 401 into 1404 -/
/-- C4: the claim states that a 401 raised during resolution is always
re-raised, including on the legacy v1 fallback path.  The code
violates this: in `_getId_v1_fallback` the inner except clause
re-raises the 401 (src/glpi.py:591-592, commented "Re-raise auth
errors"), but the OUTER try/except (src/glpi.py:568 and 598-600)
catches that re-raised exception and returns 1404.  Evaluated here: a
v2 adapter resolving an unmapped type ("ComputerType") while every
request returns HTTP 401 gets `1404` (NotFound) — and the session
token has been cleared — instead of the 401 propagating. -/
theorem getId_fallback_swallows_401 :
    (getId env401 stV2 "ComputerType" "Laptop").1 = Except.ok (some 1404)
    ∧ (getId env401 stV2 "ComputerType" "Laptop").2.session_token = none :=
  ⟨rfl, rfl⟩

/-! ### Claim C6: the legacy fallback always restores the protocol selector -/
/-- C6: `_getId_v1_fallback` (src/glpi.py:562-600) and
`_link_component_v1` (src/glpi.py:602-622) save `api_version`, pin it
to "v1", and restore it in a finally block; the embedding mirrors that
structure, so for every wire oracle, state and argument — including
every exception path — the returned state carries the original
`api_version`. -/
theorem fallback_restores_api_version (env : Nat → Wire) (st : St) (t q : String)
    (did : Int) (ct : String) (cid : Int) :
    (getId_v1_fallback env st t q).2.api_version = st.api_version
    ∧ (linkComponent_v1 env st did ct cid).api_version = st.api_version :=
  ⟨rfl, rfl⟩

/-! ### Claim C8: empty query resolves immediately with no dispatch -/
/-- C8: `getId` (src/glpi.py:430-431) returns the NotFound-equivalent
result (Python None, modelled as `Except.ok none`) for an empty or
missing query, leaving the state — in particular the request counter
and the request log — untouched: zero network calls are made. -/
theorem getId_empty_query_no_dispatch (env : Nat → Wire) (st : St) (t : String) :
    getId env st t "" = (Except.ok none, st)
    ∧ (getId env st t "").2.calls = st.calls
    ∧ (getId env st t "").2.reqLog = st.reqLog := by
  have h : getId env st t "" = (Except.ok none, st) := by
    unfold getId
    rw [if_pos rfl]
  exact ⟨h, by rw [h], by rw [h]⟩

/-! ### Claim C5: 401 invalidates the session and later calls fail fast -/
/-- C5: when a dispatcher call observes HTTP 401 (src/glpi.py:311-316)
the session credential is cleared and the distinct unauthorized error
is raised; because `_send_request` then fails its credential precheck
(src/glpi.py:272-273) before building or dispatching any request,
every subsequent call — under any wire oracle — returns the distinct
not-authenticated error and leaves the state (request counter and log
included) untouched, until a new authentication installs a token. -/
theorem unauthorized_clears_session (env : Nat → Wire) (st : St) (e m : String)
    (p : Option PyVal) (tok : String) (b : Option Body)
    (htok : st.session_token = some tok) (henv : env st.calls = Wire.resp 401 b) :
    (send_request env st e m p).1 = Except.error Exc.unauthorized
    ∧ (send_request env st e m p).2.session_token = none
    ∧ ∀ (env2 : Nat → Wire) (e2 m2 : String) (p2 : Option PyVal),
        send_request env2 (send_request env st e m p).2 e2 m2 p2
          = (Except.error Exc.noToken, (send_request env st e m p).2) := by
  have hs : (send_request env st e m p).2.session_token = none := by
    simp [send_request, htok, henv]
  refine ⟨?_, hs, fun env2 e2 m2 p2 => send_noToken env2 _ e2 m2 p2 hs⟩
  simp [send_request, htok, henv]

/-- Witness for C5 at a concrete state and oracle. -/
theorem unauthorized_clears_session_witness :
    stV1.session_token = some "tok" ∧ env401 stV1.calls = Wire.resp 401 none
    ∧ ((send_request env401 stV1 "/x" "GET" none).1 = Except.error Exc.unauthorized
       ∧ (send_request env401 stV1 "/x" "GET" none).2.session_token = none
       ∧ ∀ (env2 : Nat → Wire) (e2 m2 : String) (p2 : Option PyVal),
           send_request env2 (send_request env401 stV1 "/x" "GET" none).2 e2 m2 p2
             = (Except.error Exc.noToken, (send_request env401 stV1 "/x" "GET" none).2)) :=
  ⟨rfl, rfl, unauthorized_clears_session env401 stV1 "/x" "GET" none "tok" none rfl rfl⟩

/-! ### Claim C9: every dispatched call counts exactly one request -/
/-- C9: a dispatcher call holding a session token increments the
requests counter exactly once (src/glpi.py:304), whatever the wire
outcome — success, 4xx, 401, 5xx or transport failure (the oracle is
universally quantified, and the transport case shows the increment
happens before the response is seen, i.e. before dispatch completes). -/
theorem send_request_counts_once (env : Nat → Wire) (st : St) (e m : String)
    (p : Option PyVal) (tok : String) (htok : st.session_token = some tok) :
    (send_request env st e m p).2.metrics.requests = st.metrics.requests + 1 := by
  unfold send_request
  rw [htok]
  dsimp only
  cases hw : env st.calls with
  | transport => rfl
  | resp status body =>
    by_cases h1 : status = 401
    · simp [h1]
    · by_cases h2 : 400 ≤ status
      · by_cases h3 : status < 500 <;> simp [h1, h2, h3]
      · cases body <;> simp [h1, h2]

/-- Witness for C9 at a concrete state and oracle (transport outcome). -/
theorem send_request_counts_once_witness :
    stV1.session_token = some "tok"
    ∧ (send_request envTr stV1 "/x" "GET" none).2.metrics.requests
        = stV1.metrics.requests + 1 :=
  ⟨rfl, send_request_counts_once envTr stV1 "/x" "GET" none "tok" rfl⟩

/-! ### Claim C10: invalid_request/client_id rejection triggers one Basic-auth retry -/
/-- C10: when the v2 token endpoint rejects the password grant with
HTTP 400, error `invalid_request` and a hint citing `client_id`,
`_init_session_v2` (src/glpi.py:162-191) issues exactly one further
token request, carrying HTTP Basic credentials equal to the configured
client id/secret pair, before surfacing any error; if that retry
returns HTTP 200, authentication succeeds with the retry response's
access token. -/
theorem init_session_v2_basic_fallback (cfg : Cfg) (resp1 resp2 : TokResp) (h : String)
    (hjson : resp1.jsonOk = true) (hct : resp1.ctJson = true) (hst : resp1.status = 400)
    (herr : resp1.err = some "invalid_request") (hhint : resp1.hint = some h)
    (hin : pyIn "client_id" h = true)
    (hfb : resp2.status = 200) (hfbjson : resp2.jsonOk = true) :
    init_session_v2 cfg resp1 (some resp2)
      = ((true, AuthOut.okTok resp2.access_token),
         [⟨none⟩, ⟨some (cfg.client_id.getD "", cfg.client_secret.getD "")⟩]) := by
  unfold init_session_v2
  rw [hjson, hct, hst, herr, hhint]
  simp [hin, hfb, hfbjson]

/-- Witness for C10 at concrete configuration and responses. -/
theorem init_session_v2_basic_fallback_witness :
    resp1C10.jsonOk = true ∧ resp1C10.ctJson = true ∧ resp1C10.status = 400
    ∧ resp1C10.err = some "invalid_request"
    ∧ resp1C10.hint = some "check the client_id parameter"
    ∧ pyIn "client_id" "check the client_id parameter" = true
    ∧ resp2C10.status = 200 ∧ resp2C10.jsonOk = true
    ∧ init_session_v2 cfgC10 resp1C10 (some resp2C10)
        = ((true, AuthOut.okTok (some "tok123")),
           [⟨none⟩, ⟨some ("cid", "sec")⟩]) :=
  ⟨rfl, rfl, rfl, rfl, rfl, by decide, rfl, rfl,
   init_session_v2_basic_fallback cfgC10 resp1C10 resp2C10
     "check the client_id parameter" rfl rfl rfl rfl rfl (by decide) rfl rfl⟩

/-! ### Claim C7: exact match preferred over substring match -/
/-- C7: on the modern dialect, when the candidate set returned by the
filtered search contains both a candidate whose display field is a
normalized exact match of the query and one that merely contains the
query, `getId` returns the id of an exact-match candidate
(src/glpi.py:538-541, the exact-match short-circuit); and the
unfiltered scan (src/glpi.py:549-556, embedded as `bestLoop`) likewise
returns an exact-match candidate whenever one is present, for every
case/whitespace variant, since matching is performed on `norm`-alized
display names. -/
theorem getId_v2_prefers_exact_match (env : Nat → Wire) (st : St)
    (itemtype query base field tok : String) (xs : List Cand)
    (hv : st.api_version = "v2") (htok : st.session_token = some tok)
    (hm : v2Mapping itemtype = some (base, field))
    (henv : env st.calls = Wire.resp 200 (some (Body.cands xs)))
    (hq : query ≠ "")
    (hex : ∃ e ∈ xs, norm (display e) = norm query)
    (hsub : ∃ s ∈ xs, norm (display s) ≠ norm query
              ∧ pyIn (norm query) (norm (display s)) = true) :
    (∃ e ∈ xs, norm (display e) = norm query
       ∧ (getId env st itemtype query).1 = Except.ok e.id)
    ∧ ∀ ys : List Cand, (∃ e ∈ ys, norm (display e) = norm query) →
        ∃ e, bestLoop (norm query) none ys = some e ∧ e ∈ ys
          ∧ norm (display e) = norm query := by
  constructor
  · have hsend : (send_request env st base "GET" none).1
        = Except.ok (Body.cands xs) := by
      simp [send_request, htok, henv]
    cases xs with
    | nil =>
      obtain ⟨e, he, _⟩ := hex
      cases he
    | cons c cs =>
      obtain ⟨e, hmem, hnorm, hpick⟩ := filteredPick_exact (norm query) c cs hex
      refine ⟨e, hmem, hnorm, ?_⟩
      unfold getId
      rw [if_neg hq]
      dsimp only
      rw [if_pos hv]
      unfold getId_v2
      rw [hm]
      dsimp only
      rw [hsend]
      dsimp only
      rw [hpick]
  · intro ys hy
    obtain ⟨e, hs, hm2, hn2⟩ := bestLoop_exact (norm query) ys none hy
    exact ⟨e, hs, hm2, hn2⟩

/-- Witness for C7 at a concrete candidate set: `getId` returns the id
of the exact-match candidate even though a substring match is listed
first. -/
theorem getId_v2_prefers_exact_match_witness :
    stV2.api_version = "v2" ∧ stV2.session_token = some "tok"
    ∧ v2Mapping "Manufacturer" = some ("/Dropdowns/Manufacturer", "name")
    ∧ envC7 stV2.calls = Wire.resp 200 (some (Body.cands xsC7))
    ∧ "Dell" ≠ ""
    ∧ (∃ e ∈ xsC7, norm (display e) = norm "Dell")
    ∧ (∃ s2 ∈ xsC7, norm (display s2) ≠ norm "Dell"
         ∧ pyIn (norm "Dell") (norm (display s2)) = true)
    ∧ ((∃ e ∈ xsC7, norm (display e) = norm "Dell"
          ∧ (getId envC7 stV2 "Manufacturer" "Dell").1 = Except.ok e.id)
       ∧ ∀ ys : List Cand, (∃ e ∈ ys, norm (display e) = norm "Dell") →
           ∃ e, bestLoop (norm "Dell") none ys = some e ∧ e ∈ ys
             ∧ norm (display e) = norm "Dell") :=
  ⟨rfl, rfl, rfl, rfl, by decide, by decide, by decide,
   getId_v2_prefers_exact_match envC7 stV2 "Manufacturer" "Dell"
     "/Dropdowns/Manufacturer" "name" "tok" xsC7 rfl rfl rfl rfl (by decide)
     (by decide) (by decide)⟩

/-- C2 (amended): on the modern dialect, every request newly issued by
the root-creation phase of `add` with method POST — i.e. the create
request for the root Computer entity, whose payload is the
`_sanitize_v2_computer_payload` output (src/glpi.py:467-468) — carries
no reference field (location, user, model, manufacturer) whose value
is non-positive or a 1403/1404 sentinel.  The legacy dialect performs
no such sanitisation (see the counterexample), and the v2 payload has
no computer-type field at all (src/glpi.py:458-466). -/
theorem add_create_v2_payload_sanitized (env : Nat → Wire) (st : St) (data : Data)
    (r : Req) (k : String) (v : PyVal)
    (hv : st.api_version = "v2")
    (hr : r ∈ (add_create env st data).2.reqLog) (hnew : r ∉ st.reqLog)
    (hpost : r.method = "POST")
    (hk : refKeys.contains k = true)
    (hl : reqField r k = some v) :
    ∃ n, v = PyVal.pInt n ∧ 0 < n ∧ n ≠ 1403 ∧ n ≠ 1404 := by
  rcases add_create_posts env st data hv r hr with h | h | ⟨fs, rfl⟩
  · exact absurd h hnew
  · exact absurd (h.symm.trans hpost) (by decide)
  · exact sanitize_clean fs k v hk hl

/-- Witness for C2 on a concrete run: the logged create request is a
POST whose location field is the positive non-sentinel id 7. -/
theorem add_create_v2_payload_sanitized_witness :
    stC2w.api_version = "v2"
    ∧ c2wReq ∈ (add_create envC2w stC2w dataC2w).2.reqLog
    ∧ c2wReq ∉ stC2w.reqLog
    ∧ c2wReq.method = "POST"
    ∧ refKeys.contains "location" = true
    ∧ reqField c2wReq "location" = some (PyVal.pInt 7)
    ∧ ∃ n, PyVal.pInt 7 = PyVal.pInt n ∧ 0 < n ∧ n ≠ 1403 ∧ n ≠ 1404 := by
  have hlog : (add_create envC2w stC2w dataC2w).2.reqLog
      = [⟨"/Administration/Location", "GET", none⟩, c2wReq] := rfl
  have hmem : c2wReq ∈ (add_create envC2w stC2w dataC2w).2.reqLog := by
    rw [hlog]
    exact List.Mem.tail _ (List.Mem.head _)
  have hno : c2wReq ∉ stC2w.reqLog := fun h => nomatch h
  exact ⟨rfl, hmem, hno, rfl, rfl, rfl,
    add_create_v2_payload_sanitized envC2w stC2w dataC2w c2wReq "location"
      (PyVal.pInt 7) rfl hmem hno rfl rfl rfl⟩

/-- C2 counterexample: on the legacy dialect the claim fails — with
the location resolving to the 1404 sentinel, the payload POSTed to
create the root Computer (the second logged request) still carries
`locations_id = 1404`: `add` performs no sanitisation on the v1 path
(src/glpi.py:469-489). -/
theorem add_v1_submits_sentinel :
    ((add envC2 stC2 "Computer" dataC2).2.reqLog[1]?).map Req.method = some "POST"
    ∧ ((add envC2 stC2 "Computer" dataC2).2.reqLog[1]?).map Req.endpoint
        = some "/Computer/"
    ∧ reqField2 ((add envC2 stC2 "Computer" dataC2).2.reqLog[1]?)
        "input" "locations_id" = some (PyVal.pInt 1404) :=
  ⟨rfl, rfl, rfl⟩

/-! ### Claim C3: component failures after root creation are non-fatal -/
/-- C3 (amended): on the modern dialect, once the root-creation phase
has returned a root id, `add` returns that id whatever the wire oracle
does afterwards: every failure to resolve a hardware component is
absorbed inside the resolver, a failed PATCH falls back to the
error-swallowing v1 link call, and the OS link is likewise guarded
(src/glpi.py:635-672 and 702-711) — no component failure raises,
aborts, or revokes the created root.  On the legacy dialect this does
not hold (see the counterexample): the component-link POST is
unguarded. -/
theorem add_v2_partial_failure_tolerant (env : Nat → Wire) (st : St) (data : Data)
    (cid : Int) (st1 : St)
    (hv : st.api_version = "v2")
    (hcreate : add_create env st data = (Except.ok cid, st1)) :
    ∃ st2, add env st "Computer" data = (Except.ok cid, st2) := by
  unfold add
  rw [if_pos (show "Computer" = "Computer" from rfl), hcreate]
  dsimp only
  have hb : st1.api_version = "v2" := by
    have h := add_create_api env st data
    rw [hcreate] at h
    exact h.trans hv
  by_cases hit : (itemsToAdd.any fun i => (sget data i).isSome) = true
  · rw [if_pos hit]
    have hok := addToItemtype_v2 env st1 cid data hb
    rw [hok]
    exact ⟨(addToItemtype env st1 cid data).2, rfl⟩
  · rw [if_neg hit]
    exact ⟨st1, rfl⟩

/-- Witness for C3: with both component resolutions failing, `add`
still returns the created root id 42. -/
theorem add_v2_partial_failure_tolerant_witness :
    stC3.api_version = "v2"
    ∧ add_create envC3 stC3 dataC3 = (Except.ok 42, (add_create envC3 stC3 dataC3).2)
    ∧ ∃ st2, add envC3 stC3 "Computer" dataC3 = (Except.ok 42, st2) :=
  ⟨rfl, rfl,
   add_v2_partial_failure_tolerant envC3 stC3 dataC3 42
     (add_create envC3 stC3 dataC3).2 rfl rfl⟩

/-- C3 counterexample: on the legacy dialect the claim fails — the
root entity is created (`add_create` returns id 42), but the failing
component-link POST (src/glpi.py:690-692, unguarded) raises out of
`add`, which therefore does not return the root id. -/
theorem add_v1_link_failure_raises :
    (add envC3b stC3b "Computer" dataC3b).1 = Except.error (Exc.httpError 500)
    ∧ (add_create envC3b stC3b dataC3b).1 = Except.ok 42 :=
  ⟨rfl, rfl⟩
